import Mathlib

/-!
Verification development for the low-cost healthcare locator service
(Express/Node application: `map-integration.js`, `cost-estimation.js`,
`controllers/facilityController.js`).

Shallow embedding conventions:
* JavaScript numbers are modelled as exact rationals (`ℚ`); the
  transcendental Haversine distance is modelled over the reals (`ℝ`).
* A JavaScript object used as an open string-keyed tag map is an
  association list `Tags := List (String × String)`; property access
  returns `Option String` (`none` models `undefined`), and string
  truthiness (`s !== undefined && s !== ''`) is the `truthy` predicate.
* JavaScript string primitives that the code relies on
  (`startsWith`, `replace` (first occurrence), `includes`) are
  re-implemented by structural recursion on the character list so the
  kernel can evaluate them on concrete inputs.
-/

namespace HealthLocator

/-- Tag map of an OSM element: JS object with string keys and values. -/
abbrev Tags := List (String × String)

/-- JS property read `tags[k]`: `some v` when the key is present, `none`
models `undefined`.  Keys of a JS object are unique; on the assoc list the
first binding wins. -/
def tagGet (tags : Tags) (k : String) : Option String :=
  (tags.find? (fun kv => kv.1 == k)).map (fun kv => kv.2)

/-- JS truthiness of an optional string: `undefined` and `""` are falsy,
every other string is truthy. -/
def truthy (o : Option String) : Bool :=
  o.getD "" != ""

/-- JS `a || b` where `a` is an optional string and `b` a string default:
returns `a` when truthy, else `b`. -/
def jsOr (a : Option String) (b : String) : String :=
  if truthy a then a.getD "" else b

/-- JS `a || b` on two optional strings (first truthy one, else the
second). -/
def jsOrO (a b : Option String) : Option String :=
  if truthy a then a else b

/-- JS `Math.round x = ⌊x + 0.5⌋` (round half towards +∞), exact on `ℚ`. -/
def jsRound (x : ℚ) : ℤ :=
  ⌊x + 1/2⌋

/-- `List Char` version of JS `String.prototype.startsWith`. -/
def hasPrefixL : List Char → List Char → Bool
  | _, [] => true
  | [], _ :: _ => false
  | c :: cs, p :: ps => c == p && hasPrefixL cs ps

/-- JS `s.startsWith t`. -/
def jsStartsWith (s t : String) : Bool :=
  hasPrefixL s.data t.data

/-- Remove the first occurrence of `pat` from `s` (`List Char` level):
JS `s.replace(pat, '')` for a plain-string pattern. -/
def removeFirstL (pat : List Char) : List Char → List Char
  | [] => []
  | c :: cs =>
      if hasPrefixL (c :: cs) pat then (c :: cs).drop pat.length
      else c :: removeFirstL pat cs

/-- JS `s.replace(pat, '')`: drops the first occurrence of `pat`, returns
`s` unchanged when `pat` does not occur. -/
def jsRemoveFirst (s pat : String) : String :=
  String.mk (removeFirstL pat.data s.data)

/-- `List Char` version of JS `String.prototype.includes`. -/
def containsSubL (pat : List Char) : List Char → Bool
  | [] => pat.isEmpty
  | c :: cs => hasPrefixL (c :: cs) pat || containsSubL pat cs

/-- JS `s.includes t`. -/
def jsIncludes (s t : String) : Bool :=
  containsSubL t.data s.data

/-- JS `v.charAt(0).toUpperCase() + v.slice(1)` (ASCII case map, which is
what the tag vocabulary uses). -/
def capitalizeFirst (s : String) : String :=
  match s.data with
  | [] => ""
  | c :: cs => String.mk (c.toUpper :: cs)

/-! ## Cost estimation (`cost-estimation.js`, `displayCostResults`)

The per-provider insurance adjustment of lines 107–132: starting from the
raw `averageCost`/`minCost`/`maxCost`, an `insuranceType` different from
`'none'` that matches one of the three known categories replaces each cost
by `Math.round(cost * multiplier)`; otherwise the three costs are left
untouched. -/

/-- Adjusted `(averageCost, minCost, maxCost)` as displayed by
`displayCostResults` for one provider row. -/
def adjustCosts (insuranceType : String) (averageCost minCost maxCost : ℚ) :
    ℚ × ℚ × ℚ :=
  if insuranceType ≠ "none" then
    if insuranceType = "private" then
      ((jsRound (averageCost * 0.6) : ℚ), (jsRound (minCost * 0.6) : ℚ),
        (jsRound (maxCost * 0.6) : ℚ))
    else if insuranceType = "medicare" then
      ((jsRound (averageCost * 0.45) : ℚ), (jsRound (minCost * 0.45) : ℚ),
        (jsRound (maxCost * 0.45) : ℚ))
    else if insuranceType = "medicaid" then
      ((jsRound (averageCost * 0.4) : ℚ), (jsRound (minCost * 0.4) : ℚ),
        (jsRound (maxCost * 0.4) : ℚ))
    else (averageCost, minCost, maxCost)
  else (averageCost, minCost, maxCost)

/-- The multiplier table claimed by the specification (`none → 1.0`,
`private → 0.60`, `medicare → 0.45`, `medicaid → 0.40`, anything else
treated as `none`). -/
def specMultiplier (insuranceType : String) : ℚ :=
  if insuranceType = "private" then 0.6
  else if insuranceType = "medicare" then 0.45
  else if insuranceType = "medicaid" then 0.4
  else 1

/-- Modelled from the spec: adjusted costs per the specification sentence —
`round(cost * multiplier)` applied independently to each of the three
costs, for every category (unknown categories behaving like `none`). -/
def specAdjustCosts (insuranceType : String) (averageCost minCost maxCost : ℚ) :
    ℚ × ℚ × ℚ :=
  ((jsRound (averageCost * specMultiplier insuranceType) : ℚ),
    (jsRound (minCost * specMultiplier insuranceType) : ℚ),
    (jsRound (maxCost * specMultiplier insuranceType) : ℚ))

/-! ## Facility type derivation (`map-integration.js`, `getFacilityType`) -/

/-- `getFacilityType` (lines 189–199): priority-ordered first-match
inspection of the tags.  The `if (tags.healthcare)` test is JS truthiness,
so an absent or empty `healthcare` value falls through. -/
def getFacilityType (tags : Tags) : String :=
  if tagGet tags "amenity" = some "hospital" then "Hospital"
  else if tagGet tags "amenity" = some "clinic" then "Clinic"
  else if tagGet tags "amenity" = some "doctors" then "Doctor\x27s Office"
  else if tagGet tags "healthcare" = some "centre" then "Health Center"
  else if tagGet tags "healthcare" = some "clinic" then "Clinic"
  else if truthy (tagGet tags "healthcare") then
    "Healthcare (" ++ (tagGet tags "healthcare").getD "" ++ ")"
  else if tagGet tags "social_facility" = some "healthcare" then
    "Community Health Center"
  else "Healthcare Facility"

/-- Modelled from the spec: the facilityType derivation order exactly as the
specification lists it (first match wins), for comparison with
`getFacilityType`. -/
def specFacilityType (tags : Tags) : String :=
  if tagGet tags "amenity" = some "hospital" then "Hospital"
  else if tagGet tags "amenity" = some "clinic" then "Clinic"
  else if tagGet tags "amenity" = some "doctors" then "Doctor\x27s Office"
  else if tagGet tags "healthcare" = some "centre" then "Health Center"
  else if tagGet tags "healthcare" = some "clinic" then "Clinic"
  else if truthy (tagGet tags "healthcare") then
    "Healthcare (" ++ (tagGet tags "healthcare").getD "" ++ ")"
  else if tagGet tags "social_facility" = some "healthcare" then
    "Community Health Center"
  else "Healthcare Facility"

/-! ## Distance calculator (`map-integration.js`, `calculateDistance`)

Coordinates are JS numbers (exact rationals here); the Haversine
computation runs over `ℝ`.  `Math.atan2` is modelled by `atan2` below with
the standard quadrant convention; the code only ever calls it with two
non-negative arguments. -/

/-- A coordinate pair `{lat, lon}`. -/
structure Coord where
  lat : ℚ
  lon : ℚ
  deriving DecidableEq

/-- `toRad` (line 180): degrees to radians. -/
noncomputable def toRad (value : ℚ) : ℝ :=
  (value : ℝ) * Real.pi / 180

/-- JS `Math.atan2 y x` (quadrant-aware arctangent). -/
noncomputable def atan2 (y x : ℝ) : ℝ :=
  if 0 < x then Real.arctan (y / x)
  else if x < 0 then
    (if 0 ≤ y then Real.arctan (y / x) + Real.pi
      else Real.arctan (y / x) - Real.pi)
  else if 0 < y then Real.pi / 2
  else if y < 0 then -(Real.pi / 2)
  else 0

/-- `calculateDistance` (lines 166–178): Haversine distance in km over
Earth radius 6371. -/
noncomputable def calculateDistance (coords1 coords2 : Coord) : ℝ :=
  let R : ℝ := 6371
  let dLat := toRad (coords2.lat - coords1.lat)
  let dLon := toRad (coords2.lon - coords1.lon)
  let a :=
    Real.sin (dLat / 2) * Real.sin (dLat / 2) +
      Real.cos (toRad coords1.lat) * Real.cos (toRad coords2.lat) *
        Real.sin (dLon / 2) * Real.sin (dLon / 2)
  let c := 2 * atan2 (Real.sqrt a) (Real.sqrt (1 - a))
  R * c

/-! ## Specialty extraction (`map-integration.js`, `extractSpecialties`) -/

/-- `extractSpecialties` (lines 333–361).  Note the key scan tests
`key.startsWith('healthcare:speciality')` — without a trailing colon —
while the pushed value is `key.replace('healthcare:speciality:', '')`,
which strips the first occurrence of the colon-terminated form when
present and leaves the key unchanged otherwise. -/
def extractSpecialties (tags : Tags) : List String :=
  let specialties :=
    (tags.filter (fun kv =>
        jsStartsWith kv.1 "healthcare:speciality" && kv.2 == "yes")).map
      (fun kv => jsRemoveFirst kv.1 "healthcare:speciality:")
  let specialties := specialties
    ++ (if tagGet tags "healthcare" = some "dentist" then ["Dentistry"] else [])
    ++ (if tagGet tags "healthcare" = some "pharmacy" then ["Pharmacy"] else [])
    ++ (if tagGet tags "healthcare" = some "optometrist" then ["Optometry"] else [])
    ++ (if tagGet tags "healthcare" = some "rehabilitation" then ["Rehabilitation"] else [])
    ++ (if tagGet tags "healthcare" = some "alternative" then ["Alternative Medicine"] else [])
    ++ (if tagGet tags "healthcare" = some "laboratory" then ["Medical Laboratory"] else [])
    ++ (if tagGet tags "healthcare" = some "psychology" then ["Psychology"] else [])
  if specialties = [] then
    if tagGet tags "amenity" = some "hospital" then ["General Hospital Services"]
    else if tagGet tags "amenity" = some "clinic" then ["General Clinic Services"]
    else if truthy (tagGet tags "healthcare") then
      [capitalizeFirst ((tagGet tags "healthcare").getD "") ++ " Services"]
    else ["General Healthcare"]
  else specialties

/-- Modelled from the spec: the specialty list exactly as the claim words
it — keys prefixed by the colon-terminated `"healthcare:speciality:"` with
value `"yes"`, that prefix stripped, plus the fixed additions, with the
same single-element fallbacks. -/
def specExtractSpecialties (tags : Tags) : List String :=
  let specialties :=
    (tags.filter (fun kv =>
        jsStartsWith kv.1 "healthcare:speciality:" && kv.2 == "yes")).map
      (fun kv => String.mk (kv.1.data.drop "healthcare:speciality:".length))
  let specialties := specialties
    ++ (if tagGet tags "healthcare" = some "dentist" then ["Dentistry"] else [])
    ++ (if tagGet tags "healthcare" = some "pharmacy" then ["Pharmacy"] else [])
    ++ (if tagGet tags "healthcare" = some "optometrist" then ["Optometry"] else [])
    ++ (if tagGet tags "healthcare" = some "rehabilitation" then ["Rehabilitation"] else [])
    ++ (if tagGet tags "healthcare" = some "alternative" then ["Alternative Medicine"] else [])
    ++ (if tagGet tags "healthcare" = some "laboratory" then ["Medical Laboratory"] else [])
    ++ (if tagGet tags "healthcare" = some "psychology" then ["Psychology"] else [])
  if specialties = [] then
    if tagGet tags "amenity" = some "hospital" then ["General Hospital Services"]
    else if tagGet tags "amenity" = some "clinic" then ["General Clinic Services"]
    else if truthy (tagGet tags "healthcare") then
      [capitalizeFirst ((tagGet tags "healthcare").getD "") ++ " Services"]
    else ["General Healthcare"]
  else specialties

/-- Modelled from the spec, amended: like `specExtractSpecialties` but with
the prefix test the code actually performs (`"healthcare:speciality"`
without the trailing colon) and removal of the first occurrence of the
colon-terminated prefix. -/
def specExtractSpecialtiesAmended (tags : Tags) : List String :=
  let specialties :=
    (tags.filter (fun kv =>
        jsStartsWith kv.1 "healthcare:speciality" && kv.2 == "yes")).map
      (fun kv => jsRemoveFirst kv.1 "healthcare:speciality:")
  let specialties := specialties
    ++ (if tagGet tags "healthcare" = some "dentist" then ["Dentistry"] else [])
    ++ (if tagGet tags "healthcare" = some "pharmacy" then ["Pharmacy"] else [])
    ++ (if tagGet tags "healthcare" = some "optometrist" then ["Optometry"] else [])
    ++ (if tagGet tags "healthcare" = some "rehabilitation" then ["Rehabilitation"] else [])
    ++ (if tagGet tags "healthcare" = some "alternative" then ["Alternative Medicine"] else [])
    ++ (if tagGet tags "healthcare" = some "laboratory" then ["Medical Laboratory"] else [])
    ++ (if tagGet tags "healthcare" = some "psychology" then ["Psychology"] else [])
  if specialties = [] then
    if tagGet tags "amenity" = some "hospital" then ["General Hospital Services"]
    else if tagGet tags "amenity" = some "clinic" then ["General Clinic Services"]
    else if truthy (tagGet tags "healthcare") then
      [capitalizeFirst ((tagGet tags "healthcare").getD "") ++ " Services"]
    else ["General Healthcare"]
  else specialties

/-! ## Overpass result processing (`map-integration.js`,
`processOverpassResults`, lines 103–158) -/

/-- An element of an Overpass response batch.  OSM nodes always carry
their own `lat`/`lon`; ways carry a list of referenced node ids; `tags`
is `none` when the element has no `tags` property (the JS code tests its
truthiness — note an empty tag object is truthy and is modelled as
`some []`). -/
inductive Element where
  | node (id : ℕ) (lat lon : ℚ) (tags : Option Tags)
  | way (id : ℕ) (nodeRefs : List ℕ) (tags : Option Tags)
  | relation (id : ℕ) (tags : Option Tags)

/-- The `tags` property of an element. -/
def Element.tags : Element → Option Tags
  | .node _ _ _ t => t
  | .way _ _ t => t
  | .relation _ t => t

/-- The `id` property of an element. -/
def Element.id : Element → ℕ
  | .node i _ _ _ => i
  | .way i _ _ => i
  | .relation i _ => i

/-- An Overpass response: `data.elements`. -/
structure OverpassData where
  elements : List Element

/-- First pass of `processOverpassResults` (lines 109–115): the `nodes`
map, in assignment order.  A later assignment to the same id overrides an
earlier one, so lookups search the reversed list. -/
def collectNodes (elements : List Element) : List (ℕ × ℚ × ℚ) :=
  elements.filterMap (fun e =>
    match e with
    | .node i la lo _ => some (i, la, lo)
    | _ => none)

/-- `nodes[id]` lookup: the coordinates of the last node collected under
this id, if any. -/
def lookupNode (nodes : List (ℕ × ℚ × ℚ)) (i : ℕ) : Option (ℚ × ℚ) :=
  (nodes.reverse.find? (fun p => p.1 == i)).map (fun p => p.2)

/-- `getFacilityTypeName` (lines 206–214): synthesized name for unnamed
facilities. -/
def getFacilityTypeName (tags : Tags) : String :=
  let type := getFacilityType tags
  if truthy (tagGet tags "operator") then
    (tagGet tags "operator").getD "" ++ " " ++ type
  else "Unnamed " ++ type

/-- `formatAddress` (lines 221–247). -/
def formatAddress (tags : Tags) : String :=
  let parts : List String :=
    (if truthy (tagGet tags "addr:housenumber") && truthy (tagGet tags "addr:street") then
      [(tagGet tags "addr:housenumber").getD "" ++ " " ++ (tagGet tags "addr:street").getD ""]
    else if truthy (tagGet tags "addr:street") then
      [(tagGet tags "addr:street").getD ""]
    else [])
    ++
    (if truthy (tagGet tags "addr:city") then
      [(tagGet tags "addr:city").getD ""
        ++ (if truthy (tagGet tags "addr:postcode") then
              ", " ++ (tagGet tags "addr:postcode").getD "" else "")
        ++ (if truthy (tagGet tags "addr:state") then
              ", " ++ (tagGet tags "addr:state").getD "" else "")]
    else [])
  if parts.length > 0 then String.intercalate ", " parts
  else "Address not available"

/-- The facility record pushed by `processOverpassResults`
(lines 136–149). -/
structure Facility where
  id : ℕ
  type : String
  name : String
  lat : ℚ
  lon : ℚ
  tags : Tags
  distance : ℝ
  address : String
  facilityType : String
  phone : String
  website : String
  opening_hours : String

/-- The facility object literal of lines 136–149, given the element id,
its JS `type` string, its tags and its resolved coordinates. -/
noncomputable def mkFacility (searchCoords : Coord) (i : ℕ) (ty : String)
    (tags : Tags) (coords : Coord) : Facility where
  id := i
  type := ty
  name := jsOr (tagGet tags "name") (getFacilityTypeName tags)
  lat := coords.lat
  lon := coords.lon
  tags := tags
  distance := calculateDistance searchCoords coords
  address := formatAddress tags
  facilityType := getFacilityType tags
  phone := jsOr (jsOrO (tagGet tags "phone") (tagGet tags "contact:phone")) "Not available"
  website := jsOr (jsOrO (tagGet tags "website") (tagGet tags "contact:website")) ""
  opening_hours := jsOr (tagGet tags "opening_hours") "Not specified"

/-- Second pass body of `processOverpassResults` (lines 118–154) for one
element: `none` when the element is skipped (no tags, a relation, or a way
whose coordinate does not resolve), `some facility` otherwise. -/
noncomputable def processElement (nodes : List (ℕ × ℚ × ℚ))
    (searchCoords : Coord) : Element → Option Facility
  | .node i la lo tags =>
      match tags with
      | none => none
      | some t => some (mkFacility searchCoords i "node" t ⟨la, lo⟩)
  | .way i refs tags =>
      match tags with
      | none => none
      | some t =>
          match refs with
          | [] => none
          | r :: _ =>
              match lookupNode nodes r with
              | none => none
              | some (la, lo) => some (mkFacility searchCoords i "way" t ⟨la, lo⟩)
  | .relation _ _ => none

/-- `processOverpassResults` (lines 103–158): collect nodes, build the
facility list, and sort ascending by distance
(`facilities.sort((a, b) => a.distance - b.distance)`). -/
noncomputable def processOverpassResults (data : OverpassData)
    (searchCoords : Coord) : List Facility :=
  let nodes := collectNodes data.elements
  let facilities := data.elements.filterMap (processElement nodes searchCoords)
  facilities.mergeSort (fun a b => decide (a.distance ≤ b.distance))

/-- Modelled from the spec: the claim's resolvability test — a tagged node
resolves by its own coordinates, a tagged way by its first referenced node
among the batch's nodes, anything else does not resolve. -/
def keptByClaim (nodes : List (ℕ × ℚ × ℚ)) : Element → Bool
  | .node _ _ _ tags => tags.isSome
  | .way _ refs tags =>
      tags.isSome &&
        (match refs with
          | [] => false
          | r :: _ => (lookupNode nodes r).isSome)
  | .relation _ _ => false

/-! ## `/search-providers` payment filter and handlers -/

/-- The payment-options filter of the `/search-providers` handler
(lines 519–532): with a non-empty selection, a provider is kept when
`'Sliding Scale'` is selected and its `payment:sliding_scale` tag is
`'yes'`, or `'Free'` is selected and its `fee` tag is `'no'`. -/
def paymentOptionsFilter (paymentOptions : List String)
    (facilities : List Facility) : List Facility :=
  if paymentOptions.length > 0 then
    facilities.filter (fun provider =>
      (paymentOptions.contains "Sliding Scale" &&
        tagGet provider.tags "payment:sliding_scale" == some "yes") ||
      (paymentOptions.contains "Free" &&
        tagGet provider.tags "fee" == some "no"))
  else facilities

/-- Modelled from the spec: the claim's per-option satisfaction predicate —
an option is satisfied only by the explicit affirmative tag value. -/
def satisfiesOption (provider : Facility) (o : String) : Prop :=
  (o = "Sliding Scale" ∧ tagGet provider.tags "payment:sliding_scale" = some "yes") ∨
    (o = "Free" ∧ tagGet provider.tags "fee" = some "no")

/-- Geocoder outcome handed to a handler: `Except.error msg` models the
thrown error (`'Location not found'` when the provider returns zero
matches). -/
abbrev GeocodeResult := Except String Coord

/-- An HTTP JSON response as observed by a client: status code, the
optional `success` flag of the body, the optional `error` message, the
optional `totalProviders` count. -/
structure ApiResponse where
  status : ℕ
  success : Option Bool
  error : Option String
  totalProviders : Option ℕ
  providersCount : ℕ

/-- The careType filter of the `/search-providers` handler
(lines 513–517): substring match on the lowercased facilityType, applied
only when `careType` is truthy. -/
def careTypeFilter (careType : Option String) (facilities : List Facility) :
    List Facility :=
  if truthy careType then
    facilities.filter (fun facility =>
      jsIncludes facility.facilityType.toLower (careType.getD "").toLower)
  else facilities

/-- The `/search-providers` handler (lines 503–548), with the two network
calls replaced by their outcomes: a thrown geocode error reaches the
`catch` block, which sends `res.status(500).json({ error: message })` —
note no `success` field in this body.  On success the pipeline is
process → careType filter → payment filter → 200 response. -/
noncomputable def searchProvidersHandler (geocodeResult : GeocodeResult)
    (overpass : OverpassData) (careType : Option String)
    (paymentOptions : List String) : ApiResponse :=
  match geocodeResult with
  | .error msg =>
      { status := 500, success := none, error := some msg,
        totalProviders := none, providersCount := 0 }
  | .ok coordinates =>
      let facilities := processOverpassResults overpass coordinates
      let facilities := careTypeFilter careType facilities
      let facilities := paymentOptionsFilter paymentOptions facilities
      { status := 200, success := none, error := none,
        totalProviders := some facilities.length,
        providersCount := facilities.length }

/-- A persisted facility as stored by the Facility Store Adapter; only the
identity matters for the interface-level claims. -/
structure PersistedFacility where
  name : String

/-- `searchFacilities` of `controllers/facilityController.js`
(lines 28–117), with the geocoder call and the store query replaced by
their outcomes: `matching` is the store's answer to the `$near`/filter
query, and `.limit(50)` keeps its first 50 records.  Any thrown error
(including the geocoder's `'Location not found'`) reaches the `catch`
block of lines 110–116, which sends
`res.status(500).json({ success: false, error: message })`. -/
def searchFacilitiesHandler (geocodeResult : GeocodeResult)
    (matching : List PersistedFacility) : ApiResponse :=
  match geocodeResult with
  | .error msg =>
      { status := 500, success := some false, error := some msg,
        totalProviders := none, providersCount := 0 }
  | .ok _ =>
      let facilities := matching.take 50
      { status := 200, success := some true, error := none,
        totalProviders := some facilities.length,
        providersCount := facilities.length }

/-! ## Theorems -/

/-- C1 (counterexample): for the category `'none'` and the fractional cost
`1/2`, the displayed cost is the unrounded `1/2`, while the claim's
`round(cost * 1.0)` is `1` — the claim's rounding for `'none'` does not
match the code. -/
theorem c1_none_not_rounded_counterexample :
    adjustCosts "none" (1/2) 0 0 ≠ specAdjustCosts "none" (1/2) 0 0 := by
  have h1 : adjustCosts "none" (1/2) 0 0 = (1/2, 0, 0) := by
    norm_num [adjustCosts]
  have hm : specMultiplier "none" = 1 := by simp [specMultiplier]
  have h2 : jsRound ((1:ℚ)/2 * specMultiplier "none") = 1 := by
    rw [hm]
    simp only [jsRound]
    norm_num
  intro h
  rw [h1] at h
  have := congrArg (fun p => p.1) h
  simp only [specAdjustCosts, h2] at this
  norm_num at this

/-- C1 (amended): for categories `private`/`medicare`/`medicaid` each of
the three displayed costs is `Math.round(cost * multiplier)` with
multipliers `0.60`/`0.45`/`0.40`; the category `'none'` and every unknown
category leave the three costs unchanged (in particular unrounded). -/
theorem c1_cost_adjustment (c : String) (avg mn mx : ℚ) :
    (c = "private" → adjustCosts c avg mn mx =
      ((jsRound (avg * 0.6) : ℚ), (jsRound (mn * 0.6) : ℚ), (jsRound (mx * 0.6) : ℚ))) ∧
    (c = "medicare" → adjustCosts c avg mn mx =
      ((jsRound (avg * 0.45) : ℚ), (jsRound (mn * 0.45) : ℚ), (jsRound (mx * 0.45) : ℚ))) ∧
    (c = "medicaid" → adjustCosts c avg mn mx =
      ((jsRound (avg * 0.4) : ℚ), (jsRound (mn * 0.4) : ℚ), (jsRound (mx * 0.4) : ℚ))) ∧
    (c ∉ ["private", "medicare", "medicaid"] → adjustCosts c avg mn mx = (avg, mn, mx)) := by
  refine ⟨fun h => ?_, fun h => ?_, fun h => ?_, fun h => ?_⟩
  · subst h; simp [adjustCosts]
  · subst h; simp [adjustCosts]
  · subst h; simp [adjustCosts]
  · simp only [List.mem_cons, List.not_mem_nil, or_false, not_or] at h
    obtain ⟨h1, h2, h3⟩ := h
    by_cases hn : c = "none"
    · simp [adjustCosts, hn]
    · simp [adjustCosts, hn, h1, h2, h3]

/-- C1 (witness): the amended theorem applied at an unknown category and at
`'private'` with integer costs. -/
theorem c1_cost_adjustment_witness :
    adjustCosts "employer" 3 4 5 = (3, 4, 5) ∧
    adjustCosts "private" 10 20 30 =
      ((jsRound (10 * 0.6) : ℚ), (jsRound (20 * 0.6) : ℚ), (jsRound (30 * 0.6) : ℚ)) :=
  ⟨(c1_cost_adjustment "employer" 3 4 5).2.2.2 (by decide),
    (c1_cost_adjustment "private" 10 20 30).1 rfl⟩

/-- C3: the derived `facilityType` agrees with the claim's priority-ordered
first-match rule list everywhere, and it is never the empty string. -/
theorem c3_facility_type_priority (tags : Tags) :
    getFacilityType tags = specFacilityType tags ∧ getFacilityType tags ≠ "" := by
  refine ⟨rfl, ?_⟩
  unfold getFacilityType
  split_ifs <;> first
    | decide
    | · intro h
        have hl := congrArg String.length h
        rw [String.length_append, String.length_append] at hl
        have h12 : ("Healthcare (" : String).length = 12 := rfl
        have hp : (")" : String).length = 1 := rfl
        have h0 : ("" : String).length = 0 := rfl
        omega

/-- C8 (counterexample): on the geocoder's `'Location not found'` error
both search endpoints answer with HTTP 500, not 400, and the
`/search-providers` body carries no `success: false` flag. -/
theorem c8_location_not_found_counterexample :
    (searchFacilitiesHandler (Except.error "Location not found") []).status = 500 ∧
    (searchFacilitiesHandler (Except.error "Location not found") []).status ≠ 400 ∧
    (searchProvidersHandler (Except.error "Location not found") ⟨[]⟩ none []).status = 500 ∧
    (searchProvidersHandler (Except.error "Location not found") ⟨[]⟩ none []).success = none :=
  ⟨rfl, by decide, rfl, rfl⟩

/-- C8 (amended): a geocoder failure (in particular `LocationNotFound`)
reaches the generic catch of each search endpoint and is answered with
HTTP 500 carrying the error message: the persisted-facility controller
sends `{success: false, error: message}`, while `/search-providers` sends
`{error: message}` without a `success` flag; HTTP 400 is not used for
geocode-not-found. -/
theorem c8_geocode_failure_status (msg : String)
    (matching : List PersistedFacility) (overpass : OverpassData)
    (careType : Option String) (paymentOptions : List String) :
    searchFacilitiesHandler (Except.error msg) matching =
      ⟨500, some false, some msg, none, 0⟩ ∧
    searchProvidersHandler (Except.error msg) overpass careType paymentOptions =
      ⟨500, none, some msg, none, 0⟩ :=
  ⟨rfl, rfl⟩

/-- C10: the persisted-facility search truncates the store's matches to the
first 50 (`.limit(50)`), so the returned provider count — also reported as
`totalProviders` — is `min(matches, 50)` and never exceeds 50. -/
theorem c10_search_result_cap (c : Coord) (matching : List PersistedFacility) :
    (searchFacilitiesHandler (Except.ok c) matching).providersCount =
      min matching.length 50 ∧
    (searchFacilitiesHandler (Except.ok c) matching).totalProviders =
      some (min matching.length 50) ∧
    (searchFacilitiesHandler (Except.ok c) matching).providersCount ≤ 50 := by
  refine ⟨?_, ?_, ?_⟩ <;>
    simp [searchFacilitiesHandler, List.length_take, Nat.min_comm]

/-- Degrees-to-radians conversion negates with the argument. -/
lemma toRad_sub_comm (a b : ℚ) : toRad (a - b) = -(toRad (b - a)) := by
  unfold toRad
  push_cast
  ring

/-- `toRad 0 = 0`. -/
lemma toRad_zero : toRad 0 = 0 := by
  simp [toRad]

/-- `Math.atan2` is non-negative on non-negative arguments. -/
lemma atan2_nonneg {y x : ℝ} (hy : 0 ≤ y) (hx : 0 ≤ x) : 0 ≤ atan2 y x := by
  unfold atan2
  rcases hx.lt_or_eq with hpos | hzero
  · rw [if_pos hpos]
    have harg : (0:ℝ) ≤ y / x := div_nonneg hy hpos.le
    have := Real.arctan_strictMono.monotone harg
    simpa using this
  · rw [if_neg (by rw [← hzero]; exact lt_irrefl 0),
      if_neg (by rw [← hzero]; exact lt_irrefl 0)]
    rcases hy.lt_or_eq with hypos | hyzero
    · rw [if_pos hypos]
      positivity
    · rw [if_neg (by rw [← hyzero]; exact lt_irrefl 0),
        if_neg (by rw [← hyzero]; exact lt_irrefl 0)]

/-- `atan2 0 1 = 0`. -/
lemma atan2_zero_one : atan2 0 1 = 0 := by
  unfold atan2
  norm_num

/-- The Haversine `a`-term is symmetric in the two coordinates. -/
lemma haversineTerm_comm (p q : Coord) :
    Real.sin (toRad (q.lat - p.lat) / 2) * Real.sin (toRad (q.lat - p.lat) / 2) +
      Real.cos (toRad p.lat) * Real.cos (toRad q.lat) *
        Real.sin (toRad (q.lon - p.lon) / 2) * Real.sin (toRad (q.lon - p.lon) / 2) =
    Real.sin (toRad (p.lat - q.lat) / 2) * Real.sin (toRad (p.lat - q.lat) / 2) +
      Real.cos (toRad q.lat) * Real.cos (toRad p.lat) *
        Real.sin (toRad (p.lon - q.lon) / 2) * Real.sin (toRad (p.lon - q.lon) / 2) := by
  rw [toRad_sub_comm q.lat p.lat, toRad_sub_comm q.lon p.lon]
  simp only [neg_div, Real.sin_neg]
  ring

/-- The distance of a coordinate pair to itself is zero. -/
lemma calculateDistance_self (p : Coord) : calculateDistance p p = 0 := by
  simp only [calculateDistance]
  rw [sub_self, sub_self, toRad_zero]
  norm_num [atan2_zero_one]

/-- C2 (amended): within the valid latitude/longitude ranges the Haversine
distance is non-negative, symmetric, and zero on equal coordinates; the
converse (`distance zero → coordinates equal`) does **not** hold and is
dropped from the claim. -/
theorem c2_haversine_properties (a b : Coord)
    (ha1 : (-90:ℚ) ≤ a.lat) (ha2 : a.lat ≤ 90)
    (ha3 : (-180:ℚ) ≤ a.lon) (ha4 : a.lon ≤ 180)
    (hb1 : (-90:ℚ) ≤ b.lat) (hb2 : b.lat ≤ 90)
    (hb3 : (-180:ℚ) ≤ b.lon) (hb4 : b.lon ≤ 180) :
    0 ≤ calculateDistance a b ∧
    calculateDistance a b = calculateDistance b a ∧
    calculateDistance a a = 0 := by
  refine ⟨?_, ?_, calculateDistance_self a⟩
  · simp only [calculateDistance]
    apply mul_nonneg (by norm_num)
    exact mul_nonneg (by norm_num)
      (atan2_nonneg (Real.sqrt_nonneg _) (Real.sqrt_nonneg _))
  · simp only [calculateDistance]
    rw [haversineTerm_comm a b]

/-- C2 (witness): the amended theorem at the concrete pair
`(0°, 0°)`–`(45°, 90°)`. -/
theorem c2_haversine_properties_witness :
    0 ≤ calculateDistance ⟨0, 0⟩ ⟨45, 90⟩ ∧
    calculateDistance ⟨0, 0⟩ ⟨45, 90⟩ = calculateDistance ⟨45, 90⟩ ⟨0, 0⟩ ∧
    calculateDistance ⟨0, 0⟩ ⟨0, 0⟩ = 0 :=
  c2_haversine_properties ⟨0, 0⟩ ⟨45, 90⟩ (by norm_num) (by norm_num)
    (by norm_num) (by norm_num) (by norm_num) (by norm_num)
    (by norm_num) (by norm_num)

/-- C2 (counterexample): the two distinct in-range coordinates
`(90°, 0°)` and `(90°, 10°)` are at Haversine distance exactly `0`
(`cos 90° = 0` annihilates the longitude term), so `distance = 0` does not
imply equal coordinates. -/
theorem c2_zero_distance_counterexample :
    calculateDistance ⟨90, 0⟩ ⟨90, 10⟩ = 0 ∧ (⟨90, 0⟩ : Coord) ≠ ⟨90, 10⟩ := by
  constructor
  · simp only [calculateDistance]
    have hcos : Real.cos (toRad (90:ℚ)) = 0 := by
      have h : toRad (90:ℚ) = Real.pi / 2 := by
        unfold toRad
        push_cast
        ring
      rw [h, Real.cos_pi_div_two]
    norm_num [toRad_zero, hcos, atan2_zero_one, Real.sin_zero,
      Real.sqrt_zero, Real.sqrt_one]
  · intro h
    rw [Coord.mk.injEq] at h
    norm_num at h

/-- C4 (counterexample): the key `"healthcare:speciality"` (no trailing
colon) with value `"yes"` is collected by the code — which tests the
colon-less `startsWith('healthcare:speciality')` — but not by the claim's
colon-terminated prefix, so the two disagree on this tag set (the code
yields `["healthcare:speciality"]`, the claim `["General Healthcare"]`). -/
theorem c4_specialties_prefix_counterexample :
    extractSpecialties [("healthcare:speciality", "yes")] ≠
      specExtractSpecialties [("healthcare:speciality", "yes")] := by
  have h1 : extractSpecialties [("healthcare:speciality", "yes")] =
      ["healthcare:speciality"] := by decide
  have h2 : specExtractSpecialties [("healthcare:speciality", "yes")] =
      ["General Healthcare"] := by decide
  rw [h1, h2]
  decide

/-- C4 (amended): the specialties list equals the keys passing the
colon-less `healthcare:speciality` prefix test with value `yes` (with the
first occurrence of `healthcare:speciality:` removed) plus the fixed
additions, with the claim's single-element fallback when that list is
empty — and it is consequently never empty. -/
theorem c4_specialties_extraction (tags : Tags) :
    extractSpecialties tags = specExtractSpecialtiesAmended tags ∧
    extractSpecialties tags ≠ [] := by
  refine ⟨rfl, ?_⟩
  have key : ∀ (l : List String) (t : Tags),
      (if l = [] then
        (if tagGet t "amenity" = some "hospital" then ["General Hospital Services"]
          else if tagGet t "amenity" = some "clinic" then ["General Clinic Services"]
          else if truthy (tagGet t "healthcare") then
            [capitalizeFirst ((tagGet t "healthcare").getD "") ++ " Services"]
          else ["General Healthcare"])
        else l) ≠ [] := by
    intro l t
    split_ifs <;> simp_all
  exact key _ tags

/-- The length of `filterMap` counts the inputs mapped to `some`. -/
lemma length_filterMap_eq_countP {α β : Type} (f : α → Option β) (l : List α) :
    (l.filterMap f).length = l.countP (fun a => (f a).isSome) := by
  induction l with
  | nil => rfl
  | cons a l ih =>
    simp only [List.filterMap_cons, List.countP_cons]
    cases h : f a <;> simp [h, ih, List.countP_cons]

/-- `processElement` succeeds exactly on the elements the claim calls
resolvable. -/
lemma processElement_isSome_iff (nodes : List (ℕ × ℚ × ℚ))
    (searchCoords : Coord) (e : Element) :
    (processElement nodes searchCoords e).isSome = keptByClaim nodes e := by
  cases e with
  | node i la lo tags => cases tags <;> simp [processElement, keptByClaim]
  | way i refs tags =>
      cases tags with
      | none => cases refs <;> simp [processElement, keptByClaim]
      | some t =>
          cases refs with
          | nil => simp [processElement, keptByClaim]
          | cons r rest =>
              rcases h : lookupNode nodes r with _ | ⟨la, lo⟩ <;>
                simp [processElement, keptByClaim, h]
  | relation i tags => simp [processElement, keptByClaim]

/-- C5: the processed facility list has exactly one entry per element that
the claim calls resolvable (a tagged node, or a tagged way whose first
referenced node is among the batch's nodes); every tagged element without
a resolvable coordinate is skipped — the function is total, so no error is
raised — and lowers the count by exactly one compared to a batch where it
resolves. -/
theorem c5_unresolvable_elements_skipped (data : OverpassData)
    (searchCoords : Coord) :
    (processOverpassResults data searchCoords).length =
      data.elements.countP (keptByClaim (collectNodes data.elements)) := by
  unfold processOverpassResults
  rw [List.length_mergeSort, length_filterMap_eq_countP]
  exact List.countP_congr (fun e _ => by
    rw [processElement_isSome_iff (collectNodes data.elements) searchCoords e])

/-- C6: the returned provider list is sorted in ascending order of the
computed distance from the search origin. -/
theorem c6_results_sorted_by_distance (data : OverpassData)
    (searchCoords : Coord) :
    List.Sorted (fun a b : Facility => a.distance ≤ b.distance)
      (processOverpassResults data searchCoords) := by
  unfold processOverpassResults
  have h : (List.mergeSort
      (data.elements.filterMap (processElement (collectNodes data.elements) searchCoords))
      (fun a b : Facility => decide (a.distance ≤ b.distance))).Pairwise
      (fun a b : Facility => decide (a.distance ≤ b.distance) = true) :=
    List.sorted_mergeSort
      (fun a b c hab hbc => by
        simp only [decide_eq_true_eq] at hab hbc ⊢
        exact le_trans hab hbc)
      (fun a b => by
        simpa using le_total a.distance b.distance)
      (data.elements.filterMap
        (processElement (collectNodes data.elements) searchCoords))
  exact List.Pairwise.imp (by simp) h

/-- `List.contains` agrees with membership on string lists. -/
lemma contains_eq_true_iff (l : List String) (s : String) :
    l.contains s = true ↔ s ∈ l := by
  simp

/-- C7: with a non-empty payment-option selection, a facility passes the
`/search-providers` payment filter exactly when at least one selected
option is satisfied (OR semantics), an option being satisfied only by the
explicit affirmative tag value (`payment:sliding_scale = yes` for
`Sliding Scale`, `fee = no` for `Free`); in particular a facility with the
sliding-scale tag absent is excluded when only `Sliding Scale` is
selected. -/
theorem c7_payment_filter_or_semantics (paymentOptions : List String)
    (facilities : List Facility) (p : Facility) (h : paymentOptions ≠ []) :
    p ∈ paymentOptionsFilter paymentOptions facilities ↔
      p ∈ facilities ∧ ∃ o ∈ paymentOptions, satisfiesOption p o := by
  unfold paymentOptionsFilter
  rw [if_pos (List.length_pos.mpr h), List.mem_filter]
  refine and_congr_right (fun _ => ?_)
  simp only [Bool.or_eq_true, Bool.and_eq_true, beq_iff_eq,
    contains_eq_true_iff, decide_eq_true_eq]
  constructor
  · rintro (⟨hm, ht⟩ | ⟨hm, ht⟩)
    · exact ⟨"Sliding Scale", hm, Or.inl ⟨rfl, ht⟩⟩
    · exact ⟨"Free", hm, Or.inr ⟨rfl, ht⟩⟩
  · rintro ⟨o, ho, (⟨rfl, ht⟩ | ⟨rfl, ht⟩)⟩
    · exact Or.inl ⟨ho, ht⟩
    · exact Or.inr ⟨ho, ht⟩

/-- A concrete facility carrying an affirmative sliding-scale tag, used to
instantiate the payment-filter theorem. -/
def slidingScaleFacility : Facility where
  id := 1
  type := "node"
  name := "Test Clinic"
  lat := 0
  lon := 0
  tags := [("payment:sliding_scale", "yes")]
  distance := 0
  address := "Address not available"
  facilityType := "Clinic"
  phone := "Not available"
  website := ""
  opening_hours := "Not specified"

/-- C7 (witness): the payment-filter theorem at a singleton selection and
a one-facility list. -/
theorem c7_payment_filter_witness :
    (["Sliding Scale"] : List String) ≠ [] ∧
    (slidingScaleFacility ∈
        paymentOptionsFilter ["Sliding Scale"] [slidingScaleFacility] ↔
      slidingScaleFacility ∈ [slidingScaleFacility] ∧
        ∃ o ∈ (["Sliding Scale"] : List String),
          satisfiesOption slidingScaleFacility o) :=
  ⟨by decide, c7_payment_filter_or_semantics ["Sliding Scale"]
    [slidingScaleFacility] slidingScaleFacility (by decide)⟩

/-- C9 (counterexample): a normalized facility whose source tags carry
neither `website` nor `contact:website` gets the empty string as its
website field, not the `'Not available'` sentinel the claim asserts. -/
theorem c9_website_sentinel_counterexample :
    (mkFacility ⟨0, 0⟩ 1 "node" [("amenity", "hospital")] ⟨0, 0⟩).website = "" ∧
    (mkFacility ⟨0, 0⟩ 1 "node" [("amenity", "hospital")] ⟨0, 0⟩).website ≠
      "Not available" ∧
    tagGet [("amenity", "hospital")] "website" = none ∧
    tagGet [("amenity", "hospital")] "contact:website" = none :=
  ⟨rfl, by decide, rfl, rfl⟩

/-- C9 (amended): in every facility produced by `processOverpassResults`,
independently of each other, an absent phone (no `phone` nor
`contact:phone` tag) yields the `'Not available'` sentinel, and an absent
website (no `website` nor `contact:website` tag) yields the empty string,
not `'Not available'` — each conditional holding regardless of the other
pair of tags. -/
theorem c9_contact_fallbacks (data : OverpassData) (searchCoords : Coord)
    (f : Facility) (hf : f ∈ processOverpassResults data searchCoords) :
    ((tagGet f.tags "phone" = none ∧ tagGet f.tags "contact:phone" = none) →
      f.phone = "Not available") ∧
    ((tagGet f.tags "website" = none ∧ tagGet f.tags "contact:website" = none) →
      f.website = "") := by
  unfold processOverpassResults at hf
  rw [List.mem_mergeSort, List.mem_filterMap] at hf
  obtain ⟨e, _, hsome⟩ := hf
  have hfields : f.tags = f.tags ∧
      f.phone = jsOr (jsOrO (tagGet f.tags "phone") (tagGet f.tags "contact:phone"))
        "Not available" ∧
      f.website = jsOr (jsOrO (tagGet f.tags "website") (tagGet f.tags "contact:website"))
        "" := by
    cases e with
    | node i la lo tags =>
        cases tags with
        | none => simp [processElement] at hsome
        | some t =>
            simp only [processElement, Option.some.injEq] at hsome
            subst hsome
            exact ⟨rfl, rfl, rfl⟩
    | way i refs tags =>
        cases tags with
        | none => simp [processElement] at hsome
        | some t =>
            cases refs with
            | nil => simp [processElement] at hsome
            | cons r rest =>
                rcases hl : lookupNode (collectNodes data.elements) r with _ | ⟨la, lo⟩
                · simp [processElement, hl] at hsome
                · simp only [processElement, hl, Option.some.injEq] at hsome
                  subst hsome
                  exact ⟨rfl, rfl, rfl⟩
    | relation i tags => simp [processElement] at hsome
  refine ⟨?_, ?_⟩
  · rintro ⟨hp1, hp2⟩
    rw [hfields.2.1, hp1, hp2]
    rfl
  · rintro ⟨hw1, hw2⟩
    rw [hfields.2.2, hw1, hw2]
    rfl

/-- The facility normalized from a minimal hospital node, used to
instantiate the contact-fallback theorem. -/
noncomputable def bareHospitalFacility : Facility :=
  mkFacility ⟨0, 0⟩ 1 "node" [("amenity", "hospital")] ⟨0, 0⟩

/-- C9 (witness): the amended theorem at a one-node batch whose tags carry
no contact information. -/
theorem c9_contact_fallbacks_witness :
    bareHospitalFacility ∈ processOverpassResults
      ⟨[Element.node 1 0 0 (some [("amenity", "hospital")])]⟩ ⟨0, 0⟩ ∧
    (bareHospitalFacility.phone = "Not available" ∧
      bareHospitalFacility.website = "") := by
  have hmem : bareHospitalFacility ∈ processOverpassResults
      ⟨[Element.node 1 0 0 (some [("amenity", "hospital")])]⟩ ⟨0, 0⟩ := by
    unfold processOverpassResults
    rw [List.mem_mergeSort]
    simp only [List.filterMap_cons, List.filterMap_nil, processElement]
    exact List.mem_singleton.mpr rfl
  exact ⟨hmem, (c9_contact_fallbacks _ _ _ hmem).1 ⟨rfl, rfl⟩,
    (c9_contact_fallbacks _ _ _ hmem).2 ⟨rfl, rfl⟩⟩

end HealthLocator
